import Mathlib

/-
  Shallow embedding of procd's watchdog subsystem (src/watchdog.c).

  The C file keeps five mutable globals: the device descriptor `wdt_fd`
  (-1 when the device is absent), the ping interval `wdt_frequency`
  (default 5 seconds), the extended-watchdog counters `wdte_failures`
  and `wdte_cycle`, and the uloop timer `wdt_timeout` (of which only the
  `pending` flag is observable through `watchdog_get_stopped`).

  External effects are passed in explicitly: the outcome of the blocking
  `system(WATCHDOG_CLIENT)` call is a `ProbeResult`, the watchdog driver
  reached through the two timeout ioctls is a `WdtDriver`, the result of
  `open("/dev/watchdog", O_WRONLY)` is an `Option Nat`, and the success
  of the one-byte ping `write` is a `Bool` (the code only logs it).
-/

namespace Procd

/-- WATCHDOG_CLIENT_RESTART_CODE from watchdog.c. -/
def WATCHDOG_CLIENT_RESTART_CODE : Int := 64

/-- WDTE_FREQUENCY from watchdog.c: the probe runs every 12th cycle. -/
def WDTE_FREQUENCY : Int := 12

/-- WDTE_FAILURES_THRESHOLD from watchdog.c. -/
def WDTE_FAILURES_THRESHOLD : Int := 15

/-- Outcome of the blocking `system(WATCHDOG_CLIENT)` call as inspected by
`watchdog_run_client`: launch failure (`system` returned -1), abnormal
termination (`!WIFEXITED(state)`), or a normal exit whose 8-bit status
is `code % 256` (the `WEXITSTATUS` truncation). -/
inductive ProbeResult where
  | launchFailed
  | abnormal
  | exited (code : Nat)
deriving DecidableEq, Repr

/-- `watchdog_run_client`: runs WATCHDOG_CLIENT; returns its exit code,
or 2 if the child could not be launched or did not exit normally. -/
def watchdog_run_client (r : ProbeResult) : Int :=
  match r with
  | .launchFailed => 2
  | .abnormal => 2
  | .exited code => ((code % 256 : Nat) : Int)

/-- The mutable globals of watchdog.c. `wdt_fd = none` models
`wdt_fd < 0` (device absent / disabled); `pending` is
`wdt_timeout.pending`, the uloop flag telling whether the timer is armed. -/
structure WdtState where
  wdt_fd : Option Nat
  wdt_frequency : Int
  wdte_failures : Int
  wdte_cycle : Int
  pending : Bool
deriving DecidableEq, Repr

/-- The globals as initialised at program start:
`wdt_fd = -1`, `wdt_frequency = 5`, `wdte_failures = 0`,
`wdte_cycle = 0`, no pending timer. -/
def initialState : WdtState :=
  { wdt_fd := none, wdt_frequency := 5, wdte_failures := 0,
    wdte_cycle := 0, pending := false }

/-- `watchdog_extended`: increments `wdte_cycle`; once it reaches
WDTE_FREQUENCY, resets it and runs the client, classifying the exit
status into `wdte_failures`. The second component reports whether the
probe was invoked on this cycle. -/
def watchdog_extended (s : WdtState) (probe : ProbeResult) : WdtState × Bool :=
  let cycle := s.wdte_cycle + 1
  if cycle ≥ WDTE_FREQUENCY then
    let state := watchdog_run_client probe
    let failures :=
      if state = 0 then 0
      else if state = WATCHDOG_CLIENT_RESTART_CODE then WDTE_FAILURES_THRESHOLD
      else s.wdte_failures + 1
    ({ s with wdte_cycle := 0, wdte_failures := failures }, true)
  else
    ({ s with wdte_cycle := cycle }, false)

/-- `watchdog_ping`: writes one byte to the descriptor when the device is
present; a failed write is only logged, so the state is returned
unchanged either way. The second component records whether a write was
attempted. -/
def watchdog_ping (s : WdtState) ( _writeOk : Bool) : WdtState × Bool :=
  match s.wdt_fd with
  | some _ => (s, true)
  | none => (s, false)

/-- `watchdog_timeout_cb`: runs `watchdog_extended`; if the failure count
has reached the threshold, cancels the timer (no ping, no reschedule),
otherwise pings and re-arms the timer. Returns
(new state, probe invoked, ping write attempted). -/
def watchdog_timeout_cb (s : WdtState) (probe : ProbeResult) (writeOk : Bool) :
    WdtState × Bool × Bool :=
  let es := watchdog_extended s probe
  if es.1.wdte_failures ≥ WDTE_FAILURES_THRESHOLD then
    ({ es.1 with pending := false }, es.2, false)
  else
    let ps := watchdog_ping es.1 writeOk
    ({ ps.1 with pending := true }, es.2, ps.2)

/-- `watchdog_set_stopped`: `true` cancels the pending timer; `false`
invokes the tick callback synchronously. Returns the same triple as
`watchdog_timeout_cb`. -/
def watchdog_set_stopped (s : WdtState) (val : Bool) (probe : ProbeResult)
    (writeOk : Bool) : WdtState × Bool × Bool :=
  if val then ({ s with pending := false }, false, false)
  else watchdog_timeout_cb s probe writeOk

/-- `watchdog_get_stopped`: true iff no timer is pending. -/
def watchdog_get_stopped (s : WdtState) : Bool := !s.pending

/-- The watchdog driver as seen through the WDIOC_SETTIMEOUT and
WDIOC_GETTIMEOUT ioctls: `cur` is the timeout currently in force and
`accept` maps a requested timeout to the value the hardware actually
adopts (hardware granularity; an `accept` returning the old `cur`
models a rejected set request, which the code deliberately ignores). -/
structure WdtDriver where
  cur : Int
  accept : Int → Int

/-- A concrete driver used for evaluation: 30-second timeout in force,
every requested value accepted verbatim. -/
def driver0 : WdtDriver := { cur := 30, accept := fun t => t }

/-- `watchdog_timeout`: returns 0 when the device is absent; otherwise
issues WDIOC_SETTIMEOUT when the argument is nonzero (C truth test
`if (timeout)`), then always queries WDIOC_GETTIMEOUT and returns the
driver's current value. Result: (returned value, driver after the call,
whether a set request was issued). -/
def watchdog_timeout (s : WdtState) (d : WdtDriver) (timeout : Int) :
    Int × WdtDriver × Bool :=
  match s.wdt_fd with
  | none => (0, d, false)
  | some _ =>
    if timeout ≠ 0 then
      let d1 : WdtDriver := { d with cur := d.accept timeout }
      (d1.cur, d1, true)
    else
      (d.cur, d, false)

/-- `watchdog_frequency`: returns 0 when the device is absent; otherwise
updates `wdt_frequency` when the argument is nonzero (C truth test
`if (frequency)`) and returns the current value. -/
def watchdog_frequency (s : WdtState) (frequency : Int) : Int × WdtState :=
  match s.wdt_fd with
  | none => (0, s)
  | some _ =>
    if frequency ≠ 0 then
      (frequency, { s with wdt_frequency := frequency })
    else
      (s.wdt_frequency, s)

/-- `watchdog_fd`: renders the descriptor with
`snprintf(fd_buf, sizeof(fd_buf), "%d", wdt_fd)` into `char fd_buf[3]`,
so at most two characters of the decimal rendering survive (snprintf
truncates and NUL-terminates). Returns NULL when the device is absent. -/
def watchdog_fd (s : WdtState) : Option String :=
  match s.wdt_fd with
  | none => none
  | some fd => some ((toString fd).take 2)

/-- Helper for `atoi`: accumulates leading decimal digits. -/
def atoiDigits : List Char → Nat → Nat
  | [], acc => acc
  | c :: cs, acc => if c.isDigit then atoiDigits cs (acc * 10 + (c.toNat - 48)) else acc

/-- C `atoi` restricted to the strings this subsystem feeds it: the
nonnegative decimal renderings produced by `watchdog_fd` (leading
digits are parsed, anything else stops the scan). -/
def atoi (str : String) : Nat := atoiDigits str.data 0

/-- Everything observable about one `watchdog_init` call: the globals and
driver afterwards, the WDTFD environment variable afterwards, whether
`open("/dev/watchdog")` was called, and whether the synchronous first
tick invoked the probe / pinged the device. -/
structure InitResult where
  state : WdtState
  driver : WdtDriver
  wdtfd_env : Option String
  openCalled : Bool
  probeInvoked : Bool
  pinged : Bool

/-- `watchdog_init`: no-op when a descriptor is already present. Otherwise
adopts the descriptor named by the WDTFD environment variable (clearing
it) or opens the device. On success it sets the device timeout to 30
and immediately runs the tick callback once. `openResult` is the
descriptor `open` would yield (`none` = open failure). -/
def watchdog_init (s : WdtState) (d : WdtDriver) (env : Option String)
    (openResult : Option Nat) (probe : ProbeResult) (writeOk : Bool) : InitResult :=
  match s.wdt_fd with
  | some _ => ⟨s, d, env, false, false, false⟩
  | none =>
    match env with
    | some str =>
      let s1 := { s with wdt_fd := some (atoi str) }
      let td := watchdog_timeout s1 d 30
      let cb := watchdog_timeout_cb s1 probe writeOk
      ⟨cb.1, td.2.1, none, false, cb.2.1, cb.2.2⟩
    | none =>
      match openResult with
      | none => ⟨s, d, none, true, false, false⟩
      | some fd =>
        let s1 := { s with wdt_fd := some fd }
        let td := watchdog_timeout s1 d 30
        let cb := watchdog_timeout_cb s1 probe writeOk
        ⟨cb.1, td.2.1, none, true, cb.2.1, cb.2.2⟩

/-- The public operations the supervisor can perform on the subsystem,
each carrying the external inputs its execution consumes. `tick` is the
uloop timer firing (it only does anything while the timer is pending). -/
inductive Op where
  | opInit (env : Option String) (openResult : Option Nat)
      (probe : ProbeResult) (writeOk : Bool)
  | tick (probe : ProbeResult) (writeOk : Bool)
  | setStopped (val : Bool) (probe : ProbeResult) (writeOk : Bool)
  | setTimeout (t : Int)
  | setFrequency (f : Int)
  | ping (writeOk : Bool)
deriving Repr

/-- One public operation. The final component records whether the tick
callback pinged the device during this operation (a scheduler ping, as
opposed to the supervisor calling `watchdog_ping` directly). -/
def step (s : WdtState) (d : WdtDriver) : Op → WdtState × WdtDriver × Bool
  | .opInit env openResult probe writeOk =>
    let r := watchdog_init s d env openResult probe writeOk
    (r.state, r.driver, r.pinged)
  | .tick probe writeOk =>
    if s.pending then
      let r := watchdog_timeout_cb s probe writeOk
      (r.1, d, r.2.2)
    else (s, d, false)
  | .setStopped val probe writeOk =>
    let r := watchdog_set_stopped s val probe writeOk
    (r.1, d, r.2.2)
  | .setTimeout t =>
    let r := watchdog_timeout s d t
    (s, r.2.1, false)
  | .setFrequency f =>
    let r := watchdog_frequency s f
    (r.2, d, false)
  | .ping writeOk =>
    let r := watchdog_ping s writeOk
    (r.1, d, false)

/-- Runs a list of public operations from a given state and driver. -/
def runOps (s : WdtState) (d : WdtDriver) : List Op → WdtState × WdtDriver
  | [] => (s, d)
  | op :: ops =>
    let r := step s d op
    runOps r.1 r.2.1 ops

/-- The operations that run the tick callback synchronously from an
arbitrary state: a resume request and a successful initialisation.
(A plain `tick` also runs it, but only while the timer is pending.) -/
def runsTickLogic : Op → Bool
  | Op.setStopped false _ _ => true
  | Op.opInit _ _ _ _ => true
  | _ => false

/-- State invariant: both extended-watchdog counters stay in range and,
whenever the failure counter sits at the threshold, the timer is not
pending (the callback that put it there cancelled the timer). -/
def WdtInv (s : WdtState) : Prop :=
  0 ≤ s.wdte_failures ∧ s.wdte_failures ≤ WDTE_FAILURES_THRESHOLD ∧
  0 ≤ s.wdte_cycle ∧ s.wdte_cycle < WDTE_FREQUENCY ∧
  (s.wdte_failures = WDTE_FAILURES_THRESHOLD → s.pending = false)

/-- Iterated extended-watchdog cycles driven by a stream of probe
results (`ps n` is the outcome the probe would have on cycle `n`). -/
def iterExtended (s : WdtState) (ps : Nat → ProbeResult) : Nat → WdtState
  | 0 => s
  | n + 1 => (watchdog_extended (iterExtended s ps n) (ps n)).1

/-- Whether the (n+1)-st extended-watchdog cycle invokes the probe. -/
def probeAt (s : WdtState) (ps : Nat → ProbeResult) (n : Nat) : Bool :=
  (watchdog_extended (iterExtended s ps n) (ps n)).2

/-- A state whose device opened with descriptor 3 and whose globals are
otherwise at their initial values. -/
def enabled3 : WdtState := { initialState with wdt_fd := some 3 }

/-- Operation sequence driving the failure counter past the threshold:
twelve resume requests whose probe cycle answers the restart code
(failures jumps to 15), then twelve more whose probe exits 1. -/
def c2_ops : List Op :=
  List.replicate 12 (Op.setStopped false (ProbeResult.exited 64) true) ++
  List.replicate 12 (Op.setStopped false (ProbeResult.exited 1) true)

/-- A successful initialisation followed by eleven timer ticks whose
probe cycle answers the restart code: the eleventh tick runs the probe
and stops the scheduler at the threshold. -/
def c3_ops1 : List Op :=
  Op.opInit none (some 3) (ProbeResult.exited 0) true ::
  List.replicate 11 (Op.tick (ProbeResult.exited 64) true)

/-- The state after `c3_ops1`: device open, failures at the threshold,
timer cancelled. -/
def c3_state1 : WdtState := (runOps initialState driver0 c3_ops1).1

/-- `c3_state1` followed by eleven resume requests with a healthy probe:
the cycle counter is back at 11 and the next resume will run the probe. -/
def c3_preResume : WdtState :=
  (runOps initialState driver0
    (c3_ops1 ++ List.replicate 11 (Op.setStopped false (ProbeResult.exited 0) true))).1

/-- A state whose device opened with descriptor 100 (obtained through a
normal initialisation whose `open` returned 100). -/
def c5_state100 : WdtState :=
  (watchdog_init initialState driver0 none (some 100) (ProbeResult.exited 0) true).state

/-- A state whose device holds descriptor 42. -/
def c5_enabled42 : WdtState := { initialState with wdt_fd := some 42 }

/-- `watchdog_set_stopped` with `false` is exactly the tick callback. -/
theorem set_stopped_false_eq (s : WdtState) (p : ProbeResult) (ok : Bool) :
    watchdog_set_stopped s false p ok = watchdog_timeout_cb s p ok := rfl

/-- `watchdog_extended` never touches the descriptor. -/
theorem extended_wdt_fd (s : WdtState) (p : ProbeResult) :
    (watchdog_extended s p).1.wdt_fd = s.wdt_fd := by
  unfold watchdog_extended
  dsimp only
  split <;> rfl

/-- `watchdog_extended` never touches the ping interval. -/
theorem extended_wdt_frequency (s : WdtState) (p : ProbeResult) :
    (watchdog_extended s p).1.wdt_frequency = s.wdt_frequency := by
  unfold watchdog_extended
  dsimp only
  split <;> rfl

/-- `watchdog_extended` never touches the timer flag. -/
theorem extended_pending (s : WdtState) (p : ProbeResult) :
    (watchdog_extended s p).1.pending = s.pending := by
  unfold watchdog_extended
  dsimp only
  split <;> rfl

/-- `watchdog_ping` returns the state unchanged. -/
theorem ping_fst (s : WdtState) (ok : Bool) : (watchdog_ping s ok).1 = s := by
  unfold watchdog_ping
  cases s.wdt_fd <;> rfl

/-- `watchdog_ping` attempts the write exactly when a descriptor is held. -/
theorem ping_snd (s : WdtState) (ok : Bool) :
    (watchdog_ping s ok).2 = s.wdt_fd.isSome := by
  unfold watchdog_ping
  cases s.wdt_fd <;> rfl

/-- The tick callback never touches the descriptor. -/
theorem cb_wdt_fd (s : WdtState) (p : ProbeResult) (ok : Bool) :
    (watchdog_timeout_cb s p ok).1.wdt_fd = s.wdt_fd := by
  unfold watchdog_timeout_cb
  dsimp only
  split
  · exact extended_wdt_fd s p
  · rw [show ({ (watchdog_ping (watchdog_extended s p).1 ok).1 with pending := true } :
        WdtState).wdt_fd = (watchdog_ping (watchdog_extended s p).1 ok).1.wdt_fd from rfl,
      ping_fst, extended_wdt_fd]

/-- C1: on a cycle where the probe runs (the incremented cycle counter has
reached WDTE_FREQUENCY), the probe outcome is classified as the spec
describes: launch failure or abnormal exit increments the failure
counter; exit status 0 resets it; exit status 64 sets it to the
threshold; any other nonzero status increments it. -/
theorem C1_probe_classification (s : WdtState) (probe : ProbeResult)
    (h : s.wdte_cycle + 1 ≥ WDTE_FREQUENCY) :
    (watchdog_extended s probe).2 = true ∧
    ((probe = ProbeResult.launchFailed ∨ probe = ProbeResult.abnormal) →
      (watchdog_extended s probe).1.wdte_failures = s.wdte_failures + 1) ∧
    (∀ c, probe = ProbeResult.exited c → c % 256 = 0 →
      (watchdog_extended s probe).1.wdte_failures = 0) ∧
    (∀ c, probe = ProbeResult.exited c → c % 256 = 64 →
      (watchdog_extended s probe).1.wdte_failures = WDTE_FAILURES_THRESHOLD) ∧
    (∀ c, probe = ProbeResult.exited c → c % 256 ≠ 0 → c % 256 ≠ 64 →
      (watchdog_extended s probe).1.wdte_failures = s.wdte_failures + 1) := by
  unfold watchdog_extended
  rw [if_pos h]
  refine ⟨rfl, ?_, ?_, ?_, ?_⟩
  · rintro (rfl | rfl) <;>
      simp [watchdog_run_client, WATCHDOG_CLIENT_RESTART_CODE]
  · rintro c rfl hc
    simp [watchdog_run_client, hc]
  · rintro c rfl hc
    simp [watchdog_run_client, hc, WATCHDOG_CLIENT_RESTART_CODE]
  · rintro c rfl hc0 hc64
    dsimp only [watchdog_run_client]
    split
    · rename_i h1
      exfalso
      omega
    · split
      · rename_i h2
        exfalso
        unfold WATCHDOG_CLIENT_RESTART_CODE at h2
        omega
      · rfl

/-- C1 witness: with the cycle counter at 11 and the probe answering the
restart code 64, the failure counter is set to the threshold. -/
theorem C1_probe_classification_witness :
    (watchdog_extended { enabled3 with wdte_cycle := 11 }
      (ProbeResult.exited 64)).1.wdte_failures = WDTE_FAILURES_THRESHOLD :=
  (C1_probe_classification { enabled3 with wdte_cycle := 11 }
    (ProbeResult.exited 64) (by decide)).2.2.2.1 64 rfl (by decide)

/-- C9: `watchdog_ping` never changes any global — descriptor, ping
interval, cycle counter, failure counter and timer flag are all as
before, whether the write succeeds or fails — and a write is attempted
exactly when the device is open. -/
theorem C9_ping_frame (s : WdtState) (writeOk : Bool) :
    (watchdog_ping s writeOk).1 = s ∧
    (watchdog_ping s writeOk).2 = s.wdt_fd.isSome :=
  ⟨ping_fst s writeOk, ping_snd s writeOk⟩

/-- C4 (amended): `getStopped` is true immediately after
`setStopped(true)`; after `setStopped(false)` it is false exactly when
the failure counter produced by the extended-watchdog cycle is still
below the threshold (at the threshold the resume leaves the timer
cancelled, so `getStopped` stays true). -/
theorem C4_get_set_stopped_amended (s : WdtState) (probe : ProbeResult) (writeOk : Bool) :
    watchdog_get_stopped (watchdog_set_stopped s true probe writeOk).1 = true ∧
    (watchdog_get_stopped (watchdog_set_stopped s false probe writeOk).1 = false ↔
      (watchdog_extended s probe).1.wdte_failures < WDTE_FAILURES_THRESHOLD) := by
  constructor
  · rfl
  · show watchdog_get_stopped (watchdog_timeout_cb s probe writeOk).1 = false ↔ _
    unfold watchdog_timeout_cb
    dsimp only
    split
    · rename_i hge
      simp only [watchdog_get_stopped]
      simp
      omega
    · rename_i hlt
      simp only [watchdog_get_stopped]
      simp
      omega

/-- C4 fails as stated: from a reachable state with the device open and
the failure counter at the threshold, `setStopped(false)` leaves the
timer cancelled, so `getStopped()` still returns true. -/
theorem C4_counterexample :
    c3_state1.wdt_fd = some 3 ∧
    c3_state1.wdte_failures = WDTE_FAILURES_THRESHOLD ∧
    watchdog_get_stopped
      (watchdog_set_stopped c3_state1 false (ProbeResult.exited 1) true).1 = true := by
  decide

/-- C7 fails as stated: with the device open, `setTimeout(-1)` issues a
set-timeout request (the code tests `if (timeout)`, i.e. nonzero, not
positive). -/
theorem C7_counterexample :
    (watchdog_timeout enabled3 driver0 (-1)).2.2 = true ∧ ¬((-1 : Int) > 0) := by
  decide

/-- C7 (amended): `setTimeout` returns 0 and leaves the driver alone when
the device is absent; otherwise a set-timeout request is issued exactly
when the argument is nonzero (not: positive), and the returned value is
always the driver's current value after the call. -/
theorem C7_timeout_amended (s : WdtState) (d : WdtDriver) (t : Int) :
    (s.wdt_fd = none → watchdog_timeout s d t = (0, d, false)) ∧
    (s.wdt_fd.isSome = true →
      ((watchdog_timeout s d t).2.2 = true ↔ t ≠ 0) ∧
      (watchdog_timeout s d t).1 = (watchdog_timeout s d t).2.1.cur ∧
      (watchdog_timeout s d t).2.1.cur = if t ≠ 0 then d.accept t else d.cur) := by
  cases hfd : s.wdt_fd with
  | none => simp [watchdog_timeout, hfd]
  | some fd =>
    refine ⟨by simp [hfd], fun _ => ?_⟩
    by_cases ht : t = 0 <;> simp [watchdog_timeout, hfd, ht]

/-- C7 witness: with the device open, `setTimeout(7)` issues the request
and reports the driver's accepted value. -/
theorem C7_timeout_witness :
    ((watchdog_timeout enabled3 driver0 7).2.2 = true ↔ (7 : Int) ≠ 0) ∧
    (watchdog_timeout enabled3 driver0 7).1 =
      (watchdog_timeout enabled3 driver0 7).2.1.cur ∧
    (watchdog_timeout enabled3 driver0 7).2.1.cur =
      if (7 : Int) ≠ 0 then driver0.accept 7 else driver0.cur :=
  (C7_timeout_amended enabled3 driver0 7).2 rfl

/-- C8 fails as stated: with the device open, `setFrequency(-1)` updates
the in-memory ping interval (the code tests `if (frequency)`, i.e.
nonzero, not positive). -/
theorem C8_counterexample :
    enabled3.wdt_frequency = 5 ∧
    (watchdog_frequency enabled3 (-1)).2.wdt_frequency = -1 ∧
    ¬((-1 : Int) > 0) := by
  decide

/-- C8 (amended): `setFrequency` returns 0 and changes nothing when the
device is absent; otherwise the in-memory ping interval is updated
exactly when the argument is nonzero (not: positive), the updated
interval is returned, and a zero argument is a pure getter. -/
theorem C8_frequency_amended (s : WdtState) (f : Int) :
    (s.wdt_fd = none → watchdog_frequency s f = (0, s)) ∧
    (s.wdt_fd.isSome = true →
      (f ≠ 0 → watchdog_frequency s f = (f, { s with wdt_frequency := f })) ∧
      (f = 0 → watchdog_frequency s f = (s.wdt_frequency, s))) := by
  cases hfd : s.wdt_fd with
  | none => simp [watchdog_frequency, hfd]
  | some fd =>
    refine ⟨by simp [hfd], fun _ => ⟨fun hf => ?_, fun hf => ?_⟩⟩
    · simp [watchdog_frequency, hfd, hf]
    · simp [watchdog_frequency, hfd, hf]

/-- C8 witness: with the device open, `setFrequency(7)` stores and
returns 7. -/
theorem C8_frequency_witness :
    watchdog_frequency enabled3 7 = (7, { enabled3 with wdt_frequency := 7 }) :=
  ((C8_frequency_amended enabled3 7).2 rfl).1 (by decide)

/-- C10: with the device absent, `setStopped(false)` still runs the full
tick logic: the counters evolve exactly as one `watchdog_extended`
cycle dictates (the probe runs exactly when that cycle says so), no
ping write is attempted, and whenever the resulting failure counter is
below the threshold the timer is armed, so `getStopped()` returns
false afterwards. -/
theorem C10_disabled_resume (s : WdtState) (probe : ProbeResult) (writeOk : Bool)
    (h : s.wdt_fd = none) :
    (watchdog_set_stopped s false probe writeOk).1.wdte_cycle =
      (watchdog_extended s probe).1.wdte_cycle ∧
    (watchdog_set_stopped s false probe writeOk).1.wdte_failures =
      (watchdog_extended s probe).1.wdte_failures ∧
    (watchdog_set_stopped s false probe writeOk).2.1 =
      (watchdog_extended s probe).2 ∧
    (watchdog_set_stopped s false probe writeOk).2.2 = false ∧
    ((watchdog_extended s probe).1.wdte_failures < WDTE_FAILURES_THRESHOLD →
      (watchdog_set_stopped s false probe writeOk).1.pending = true ∧
      watchdog_get_stopped (watchdog_set_stopped s false probe writeOk).1 = false) := by
  have hfd : (watchdog_extended s probe).1.wdt_fd = none := by
    rw [extended_wdt_fd, h]
  rw [set_stopped_false_eq]
  unfold watchdog_timeout_cb
  dsimp only
  split
  · rename_i hge
    refine ⟨rfl, rfl, rfl, rfl, fun hlt => absurd hlt (by omega)⟩
  · rename_i hlt
    simp [watchdog_ping, hfd, watchdog_get_stopped]

/-- C10 witness: from the initial (device-absent) state, a resume request
advances the cycle counter, attempts no write and arms the timer. -/
theorem C10_disabled_resume_witness :
    (watchdog_set_stopped initialState false (ProbeResult.exited 1) true).2.2 = false ∧
    (watchdog_set_stopped initialState false (ProbeResult.exited 1) true).1.pending = true ∧
    watchdog_get_stopped
      (watchdog_set_stopped initialState false (ProbeResult.exited 1) true).1 = false := by
  have h := C10_disabled_resume initialState (ProbeResult.exited 1) true rfl
  exact ⟨h.2.2.2.1, (h.2.2.2.2 (by decide)).1, (h.2.2.2.2 (by decide)).2⟩

/-- Below the frequency threshold, an extended cycle only advances the
cycle counter. -/
theorem extended_no_probe (s : WdtState) (p : ProbeResult)
    (h : s.wdte_cycle + 1 < WDTE_FREQUENCY) :
    watchdog_extended s p = ({ s with wdte_cycle := s.wdte_cycle + 1 }, false) := by
  unfold watchdog_extended
  dsimp only
  rw [if_neg (by omega)]

/-- The cycle counter after one extended cycle. -/
theorem extended_cycle (s : WdtState) (p : ProbeResult) :
    (watchdog_extended s p).1.wdte_cycle =
      if s.wdte_cycle + 1 ≥ WDTE_FREQUENCY then 0 else s.wdte_cycle + 1 := by
  unfold watchdog_extended
  dsimp only
  split <;> rfl

/-- C6: starting from a zero cycle counter, the counter after n cycles is
n mod 12; over any N < 12 cycles the probe never runs and the failure
counter is untouched; the probe runs exactly on every 12th cycle, and
the counter is back at 0 right after each probe run. -/
theorem C6_probe_cadence (s : WdtState) (ps : Nat → ProbeResult)
    (h : s.wdte_cycle = 0) :
    (∀ n : Nat, (iterExtended s ps n).wdte_cycle = (n : Int) % 12) ∧
    (∀ N : Nat, N < 12 →
      (iterExtended s ps N).wdte_failures = s.wdte_failures ∧
      ∀ k, k < N → probeAt s ps k = false) ∧
    (∀ n : Nat, probeAt s ps n = true ↔ (n + 1) % 12 = 0) ∧
    (∀ n : Nat, probeAt s ps n = true → (iterExtended s ps (n + 1)).wdte_cycle = 0) := by
  have hcyc : ∀ n : Nat, (iterExtended s ps n).wdte_cycle = (n : Int) % 12 := by
    intro n
    induction n with
    | zero => simpa [iterExtended] using h
    | succ n ih =>
      show (watchdog_extended (iterExtended s ps n) (ps n)).1.wdte_cycle = _
      rw [extended_cycle, ih]
      unfold WDTE_FREQUENCY
      split
      · rename_i hge
        push_cast at hge ⊢
        omega
      · rename_i hlt
        push_cast at hlt ⊢
        omega
  have hprobe : ∀ n : Nat, probeAt s ps n = true ↔ (n + 1) % 12 = 0 := by
    intro n
    unfold probeAt watchdog_extended
    dsimp only
    rw [hcyc n]
    unfold WDTE_FREQUENCY
    split
    · rename_i hge
      simp only [iff_true, true_iff]
      omega
    · rename_i hlt
      simp only [Bool.false_eq_true, false_iff]
      omega
  have hfail : ∀ N : Nat, N < 12 → (iterExtended s ps N).wdte_failures = s.wdte_failures := by
    intro N
    induction N with
    | zero => intro _; rfl
    | succ n ih =>
      intro hN
      have hc : (iterExtended s ps n).wdte_cycle + 1 < WDTE_FREQUENCY := by
        rw [hcyc n]
        unfold WDTE_FREQUENCY
        omega
      show (watchdog_extended (iterExtended s ps n) (ps n)).1.wdte_failures = _
      rw [extended_no_probe _ _ hc]
      exact ih (by omega)
  refine ⟨hcyc, fun N hN => ⟨hfail N hN, fun k hk => ?_⟩, hprobe, fun n hp => ?_⟩
  · cases hq : probeAt s ps k with
    | false => rfl
    | true => exact absurd ((hprobe k).mp hq) (by omega)
  · rw [hcyc (n + 1)]
    have := (hprobe n).mp hp
    push_cast
    omega

/-- C6 witness: from the initial state with a healthy probe, the probe
runs on the 12th cycle and the failure counter is untouched after 5
cycles. -/
theorem C6_probe_cadence_witness :
    probeAt initialState (fun _ => ProbeResult.exited 0) 11 = true ∧
    (iterExtended initialState (fun _ => ProbeResult.exited 0) 5).wdte_failures =
      initialState.wdte_failures := by
  have h := C6_probe_cadence initialState (fun _ => ProbeResult.exited 0) rfl
  exact ⟨(h.2.2.1 11).mpr (by decide), (h.2.1 5 (by decide)).1⟩

/-- The four possible values of the failure counter after one extended
cycle: unchanged (no probe), reset, jumped to the threshold, or
incremented. -/
theorem extended_failures_cases (s : WdtState) (p : ProbeResult) :
    (watchdog_extended s p).1.wdte_failures = s.wdte_failures ∨
    (watchdog_extended s p).1.wdte_failures = 0 ∨
    (watchdog_extended s p).1.wdte_failures = WDTE_FAILURES_THRESHOLD ∨
    (watchdog_extended s p).1.wdte_failures = s.wdte_failures + 1 := by
  unfold watchdog_extended
  dsimp only
  split
  · split
    · right; left; rfl
    · split
      · right; right; left; rfl
      · right; right; right; rfl
  · left; rfl

/-- Cycle-counter bounds after one extended cycle. -/
theorem extended_cycle_bounds (s : WdtState) (p : ProbeResult)
    (h0 : 0 ≤ s.wdte_cycle) :
    0 ≤ (watchdog_extended s p).1.wdte_cycle ∧
    (watchdog_extended s p).1.wdte_cycle < WDTE_FREQUENCY := by
  rw [extended_cycle]
  unfold WDTE_FREQUENCY
  split <;> omega

/-- The tick callback preserves the state invariant whenever it starts
below the failure threshold. -/
theorem timeout_cb_inv (s : WdtState) (p : ProbeResult) (ok : Bool)
    (hInv : WdtInv s) (hf : s.wdte_failures < WDTE_FAILURES_THRESHOLD) :
    WdtInv (watchdog_timeout_cb s p ok).1 := by
  obtain ⟨h0, h1, h2, h3, _⟩ := hInv
  have hfb := extended_failures_cases s p
  have hcb := extended_cycle_bounds s p h2
  unfold watchdog_timeout_cb
  dsimp only
  split
  · rename_i hge
    dsimp only [WdtInv]
    refine ⟨?_, ?_, hcb.1, hcb.2, fun _ => rfl⟩
    · rcases hfb with hq | hq | hq | hq <;>
        · unfold WDTE_FAILURES_THRESHOLD at *
          omega
    · rcases hfb with hq | hq | hq | hq <;>
        · unfold WDTE_FAILURES_THRESHOLD at *
          omega
  · rename_i hlt
    rw [ping_fst]
    dsimp only [WdtInv]
    refine ⟨?_, by omega, hcb.1, hcb.2, fun hEq => absurd hEq (by omega)⟩
    rcases hfb with hq | hq | hq | hq <;>
      · unfold WDTE_FAILURES_THRESHOLD at *
        omega

set_option maxRecDepth 8000 in
/-- C2 fails as stated: after `c2_ops` (twelve resume requests whose
probe answers the restart code, then twelve more whose probe exits 1)
the failure counter is 16, above FAILURE_THRESHOLD = 15. -/
theorem C2_counterexample :
    (runOps initialState driver0 c2_ops).1.wdte_failures = 16 ∧
    ¬((16 : Int) ≤ WDTE_FAILURES_THRESHOLD) := by
  decide

/-- C2 (amended): the initial state satisfies the invariant — failure
counter in [0, 15], cycle counter in [0, 12), and a timer never pending
at the threshold — and every public operation preserves it, provided
resume requests and initialisation are only performed below the
threshold (without that proviso the failure counter can pass 15, as a
resume at the threshold re-runs the probe cycle). -/
theorem C2_invariant_amended :
    WdtInv initialState ∧
    ∀ (s : WdtState) (d : WdtDriver) (op : Op), WdtInv s →
      (runsTickLogic op = true → s.wdte_failures < WDTE_FAILURES_THRESHOLD) →
      WdtInv (step s d op).1 := by
  constructor
  · exact ⟨by decide, by decide, by decide, by decide, fun hq => absurd hq (by decide)⟩
  · intro s d op hInv hg
    obtain ⟨h0, h1, h2, h3, h4⟩ := hInv
    cases op with
    | opInit env openResult probe writeOk =>
      have hf : s.wdte_failures < WDTE_FAILURES_THRESHOLD := hg rfl
      cases hsf : s.wdt_fd with
      | some fd =>
        simp only [step, watchdog_init, hsf]
        exact ⟨h0, h1, h2, h3, h4⟩
      | none =>
        cases env with
        | some str =>
          simp only [step, watchdog_init, hsf]
          exact timeout_cb_inv _ _ _ ⟨h0, h1, h2, h3, h4⟩ hf
        | none =>
          cases openResult with
          | none =>
            simp only [step, watchdog_init, hsf]
            exact ⟨h0, h1, h2, h3, h4⟩
          | some fd =>
            simp only [step, watchdog_init, hsf]
            exact timeout_cb_inv _ _ _ ⟨h0, h1, h2, h3, h4⟩ hf
    | tick probe writeOk =>
      show WdtInv (if s.pending then _ else _ : WdtState × WdtDriver × Bool).1
      split
      · rename_i hp
        have hf : s.wdte_failures < WDTE_FAILURES_THRESHOLD := by
          rcases eq_or_lt_of_le h1 with hEq | hlt
          · rw [h4 hEq] at hp
            exact absurd hp (by simp)
          · exact hlt
        exact timeout_cb_inv _ _ _ ⟨h0, h1, h2, h3, h4⟩ hf
      · exact ⟨h0, h1, h2, h3, h4⟩
    | setStopped val probe writeOk =>
      cases val with
      | true => exact ⟨h0, h1, h2, h3, fun _ => rfl⟩
      | false =>
        show WdtInv (watchdog_timeout_cb s probe writeOk).1
        exact timeout_cb_inv _ _ _ ⟨h0, h1, h2, h3, h4⟩ (hg rfl)
    | setTimeout t => exact ⟨h0, h1, h2, h3, h4⟩
    | setFrequency f =>
      cases hsf : s.wdt_fd with
      | none =>
        simp only [step, watchdog_frequency, hsf]
        exact ⟨h0, h1, h2, h3, h4⟩
      | some fd =>
        simp only [step, watchdog_frequency, hsf]
        split
        · exact ⟨h0, h1, h2, h3, h4⟩
        · exact ⟨h0, h1, h2, h3, h4⟩
    | ping writeOk =>
      show WdtInv (watchdog_ping s writeOk).1
      rw [ping_fst]
      exact ⟨h0, h1, h2, h3, h4⟩

/-- C2 witness: the invariant holds initially and after a resume request
performed below the threshold. -/
theorem C2_invariant_witness :
    WdtInv (step initialState driver0
      (Op.setStopped false (ProbeResult.exited 1) true)).1 :=
  C2_invariant_amended.2 initialState driver0 _
    ⟨by decide, by decide, by decide, by decide, fun hq => absurd hq (by decide)⟩
    (fun _ => by decide)

/-- `watchdog_frequency` touches nothing but the ping interval. -/
theorem frequency_preserves (s : WdtState) (f : Int) :
    (watchdog_frequency s f).2.wdte_failures = s.wdte_failures ∧
    (watchdog_frequency s f).2.pending = s.pending := by
  unfold watchdog_frequency
  cases s.wdt_fd with
  | none => exact ⟨rfl, rfl⟩
  | some fd =>
    dsimp only
    split
    · exact ⟨rfl, rfl⟩
    · exact ⟨rfl, rfl⟩

set_option maxRecDepth 8000 in
/-- C3 fails as stated: after `c3_ops1` the failure counter sits at the
threshold with the timer cancelled, yet a later resume request (the
twelfth of a healthy-probe series) makes the scheduler ping the device
again and re-arm the timer. -/
theorem C3_counterexample :
    c3_state1.wdte_failures = WDTE_FAILURES_THRESHOLD ∧
    c3_state1.pending = false ∧
    (step c3_preResume driver0
      (Op.setStopped false (ProbeResult.exited 0) true)).2.2 = true ∧
    (step c3_preResume driver0
      (Op.setStopped false (ProbeResult.exited 0) true)).1.pending = true := by
  decide

/-- C3 (amended): whenever the tick callback's extended cycle leaves the
failure counter at or above the threshold, the callback cancels the
timer and does not ping on that tick; and from any stopped state at or
above the threshold, every operation other than a resume request or an
initialisation keeps the counter at or above the threshold, keeps the
timer cancelled and never makes the scheduler ping — the permanence
claimed by the spec holds only until a resume request (or an
initialisation) re-runs the tick logic, which can ping and re-arm. -/
theorem C3_stopped_amended :
    (∀ (s : WdtState) (probe : ProbeResult) (writeOk : Bool),
      (watchdog_extended s probe).1.wdte_failures ≥ WDTE_FAILURES_THRESHOLD →
        (watchdog_timeout_cb s probe writeOk).1.pending = false ∧
        (watchdog_timeout_cb s probe writeOk).2.2 = false) ∧
    (∀ (s : WdtState) (d : WdtDriver) (op : Op),
      s.wdte_failures ≥ WDTE_FAILURES_THRESHOLD → s.pending = false →
      runsTickLogic op = false →
        (step s d op).1.wdte_failures ≥ WDTE_FAILURES_THRESHOLD ∧
        (step s d op).1.pending = false ∧
        (step s d op).2.2 = false) := by
  constructor
  · intro s probe ok hge
    unfold watchdog_timeout_cb
    dsimp only
    rw [if_pos hge]
    exact ⟨rfl, rfl⟩
  · intro s d op hf hp hg
    cases op with
    | opInit env openResult probe writeOk => simp [runsTickLogic] at hg
    | tick probe writeOk =>
      have hstep : step s d (Op.tick probe writeOk) = (s, d, false) := by
        simp [step, hp]
      rw [hstep]
      exact ⟨hf, hp, rfl⟩
    | setStopped val probe writeOk =>
      cases val with
      | false => simp [runsTickLogic] at hg
      | true => exact ⟨hf, rfl, rfl⟩
    | setTimeout t => exact ⟨hf, hp, rfl⟩
    | setFrequency f =>
      have hq := frequency_preserves s f
      refine ⟨?_, ?_, rfl⟩
      · show (watchdog_frequency s f).2.wdte_failures ≥ _
        rw [hq.1]
        exact hf
      · show (watchdog_frequency s f).2.pending = false
        rw [hq.2]
        exact hp
    | ping writeOk =>
      refine ⟨?_, ?_, rfl⟩
      · show (watchdog_ping s writeOk).1.wdte_failures ≥ _
        rw [ping_fst]
        exact hf
      · show (watchdog_ping s writeOk).1.pending = false
        rw [ping_fst]
        exact hp

set_option maxRecDepth 8000 in
/-- C3 witness: from the reachable threshold state, a tick callback run
whose extended cycle stays at the threshold cancels the timer and does
not ping. -/
theorem C3_stopped_witness :
    (watchdog_timeout_cb c3_state1 (ProbeResult.exited 1) true).1.pending = false ∧
    (watchdog_timeout_cb c3_state1 (ProbeResult.exited 1) true).2.2 = false :=
  C3_stopped_amended.1 c3_state1 (ProbeResult.exited 1) true (by decide)

set_option maxRecDepth 4000 in
/-- C5 fails as stated: a handle holding descriptor 100 encodes to the
truncated string "10" (the rendering buffer holds two characters plus
the terminator), and re-initialising from that string adopts
descriptor 10, not 100. -/
theorem C5_counterexample :
    c5_state100.wdt_fd = some 100 ∧
    watchdog_fd c5_state100 = some "10" ∧
    (watchdog_init initialState driver0 (some "10") none
      (ProbeResult.exited 0) true).state.wdt_fd = some 10 ∧
    (10 : Nat) ≠ 100 := by
  decide

set_option maxRecDepth 4000 in
/-- C5 (amended): for every enabled handle whose descriptor is below 100
(so that the two-character rendering buffer is not truncating), the
encode/re-initialise round-trip restores exactly the same descriptor,
issues no device open call, and clears the WDTFD environment signal. -/
theorem C5_handover_amended (s : WdtState) (n : Nat) (hn : n < 100)
    (hs : s.wdt_fd = some n) (drv : WdtDriver) (openResult : Option Nat)
    (probe : ProbeResult) (writeOk : Bool) :
    ∃ str, watchdog_fd s = some str ∧
      (watchdog_init initialState drv (some str) openResult probe
        writeOk).state.wdt_fd = some n ∧
      (watchdog_init initialState drv (some str) openResult probe
        writeOk).openCalled = false ∧
      (watchdog_init initialState drv (some str) openResult probe
        writeOk).wdtfd_env = none := by
  have hAtoi : ∀ m : Nat, m < 100 → atoi ((toString m).take 2) = m := by decide
  refine ⟨(toString n).take 2, ?_, ?_, rfl, rfl⟩
  · unfold watchdog_fd
    rw [hs]
  · show (watchdog_timeout_cb
      { initialState with wdt_fd := some (atoi ((toString n).take 2)) }
      probe writeOk).1.wdt_fd = some n
    rw [cb_wdt_fd]
    show some (atoi ((toString n).take 2)) = some n
    rw [hAtoi n hn]

/-- C5 witness: the round-trip restores descriptor 42. -/
theorem C5_handover_witness :
    ∃ str, watchdog_fd c5_enabled42 = some str ∧
      (watchdog_init initialState driver0 (some str) none
        (ProbeResult.exited 0) true).state.wdt_fd = some 42 ∧
      (watchdog_init initialState driver0 (some str) none
        (ProbeResult.exited 0) true).openCalled = false ∧
      (watchdog_init initialState driver0 (some str) none
        (ProbeResult.exited 0) true).wdtfd_env = none :=
  C5_handover_amended c5_enabled42 42 (by decide) rfl driver0 none
    (ProbeResult.exited 0) true

end Procd
